import Mathlib

/-!
Verification of the propwealth-scraper pipeline (session manager,
authenticated API client, batch extractor, result normalizer) against a
shallow embedding of src/scrapers/dsr.js and the CoreLogic scraper.

JavaScript numbers are modelled as rationals; the absent value undefined
and JSON null are modelled explicitly; the browser, provider and clock are
modelled as oracles supplied to the stateful operations.
-/

attribute [local semireducible] Rat.mul Rat.add Rat.inv Rat.sub

namespace PropWealth

/-- A JavaScript value as it occurs in the provider JSON payload: a string,
a finite number (modelled as a rational), or the absent value undefined. -/
inductive JSVal where
  | str (s : String)
  | num (q : Rat)
  | undef
deriving DecidableEq, Repr, Inhabited

/-- Whitespace characters skipped by the JS parseFloat and ToNumber
builtins (the ASCII ones: space, tab, line feed, vertical tab, form feed,
carriage return). -/
def isJsWhitespace (c : Char) : Bool :=
  c == ' ' || c == '\t' || c == '\n' || c == '\r' || c.toNat == 11 || c.toNat == 12

/-- Drop leading JS whitespace. -/
def skipWs : List Char → List Char
  | [] => []
  | c :: cs => if isJsWhitespace c then skipWs cs else c :: cs

/-- Trim JS whitespace from both ends. -/
def trimWs (s : String) : List Char :=
  (skipWs (skipWs s.toList).reverse).reverse

/-- Read an optional sign; the flag is true when the sign is minus. -/
def readSign : List Char → Bool × List Char
  | '-' :: cs => (true, cs)
  | '+' :: cs => (false, cs)
  | cs => (false, cs)

/-- Read a maximal run of decimal digits, returning the accumulated value,
the count of digits consumed, and the rest of the input. -/
def parseDigits : List Char → Nat → Nat → Nat × Nat × List Char
  | [], acc, n => (acc, n, [])
  | c :: cs, acc, n =>
    if c.isDigit then parseDigits cs (acc * 10 + (c.toNat - 48)) (n + 1)
    else (acc, n, c :: cs)

/-- Integer power of ten as a rational. -/
def pow10 : Int → Rat
  | .ofNat n => ((10 ^ n : Nat) : Rat)
  | .negSucc n => 1 / ((10 ^ (n + 1) : Nat) : Rat)

/-- Read an optional exponent suffix the way parseFloat does: an exponent
with no digits after it is not part of the longest valid literal prefix
and contributes a factor of one. -/
def parseExponentTail (cs : List Char) : Int :=
  let (neg, cs1) := readSign cs
  let (v, n, _) := parseDigits cs1 0 0
  if n == 0 then 0 else if neg then -(v : Int) else (v : Int)

/-- Dispatch on the exponent marker for parseFloat. -/
def parseExponent : List Char → Int
  | 'e' :: cs => parseExponentTail cs
  | 'E' :: cs => parseExponentTail cs
  | _ => 0

/-- Model of the JavaScript parseFloat builtin on decimal literals: skip
leading whitespace, read an optional sign, then the longest prefix of the
form digits [. digits] [exponent]; none stands for NaN (no digit was
consumed). Infinity and the non-decimal literal forms never occur in the
provider payload and are not modelled. -/
def jsParseFloat (s : String) : Option Rat :=
  let cs := skipWs s.toList
  let (neg, cs1) := readSign cs
  let (ip, ni, cs2) := parseDigits cs1 0 0
  match cs2 with
  | '.' :: cs3 =>
    let (fp, nf, cs4) := parseDigits cs3 0 0
    if ni + nf == 0 then none
    else
      let mant : Rat := (ip : Rat) + (fp : Rat) / ((10 ^ nf : Nat) : Rat)
      let v := mant * pow10 (parseExponent cs4)
      some (if neg then -v else v)
  | rest =>
    if ni == 0 then none
    else
      let v := (ip : Rat) * pow10 (parseExponent rest)
      some (if neg then -v else v)

/-- Full-match exponent part for the ToNumber coercion: unlike parseFloat,
a dangling exponent makes the whole string NaN. -/
def expDigits (mant : Rat) (cs : List Char) : Option Rat :=
  let (neg, cs1) := readSign cs
  let (v, n, cs2) := parseDigits cs1 0 0
  if n == 0 then none
  else match cs2 with
    | [] => some (mant * pow10 (if neg then -(v : Int) else (v : Int)))
    | _ => none

/-- Full-match tail after the mantissa for the ToNumber coercion. -/
def expTail (mant : Rat) : List Char → Option Rat
  | [] => some mant
  | 'e' :: cs1 => expDigits mant cs1
  | 'E' :: cs1 => expDigits mant cs1
  | _ => none

/-- Full-match decimal literal after the sign for the ToNumber coercion. -/
def numLiteralTail (ip ni : Nat) : List Char → Option Rat
  | '.' :: cs3 =>
    let (fp, nf, cs4) := parseDigits cs3 0 0
    if ni + nf == 0 then none
    else expTail ((ip : Rat) + (fp : Rat) / ((10 ^ nf : Nat) : Rat)) cs4
  | rest => if ni == 0 then none else expTail (ip : Rat) rest

/-- Model of the JavaScript ToNumber coercion on strings: the trimmed
string must be empty (zero) or a complete decimal literal; none stands
for NaN. -/
def strToNumber (s : String) : Option Rat :=
  match trimWs s with
  | [] => some 0
  | cs =>
    let (neg, cs1) := readSign cs
    let (ip, ni, cs2) := parseDigits cs1 0 0
    match numLiteralTail ip ni cs2 with
    | none => none
    | some v => some (if neg then -v else v)

/-- Model of the JavaScript ToNumber coercion (also the Number function)
on payload values; none stands for NaN. -/
def jsToNumber : JSVal → Option Rat
  | .num q => some q
  | .str s => strToNumber s
  | .undef => none

/-- Least power of ten clearing the denominator of a rational, searched
with fuel; every number occurring in the provider payload is a finite
decimal, for which the search succeeds. -/
def decExpAux (q : Rat) : Nat → Nat → Option Nat
  | 0, _ => none
  | fuel + 1, k =>
    if (q * pow10 (k : Int)).den == 1 then some k else decExpAux q fuel (k + 1)

/-- Pad a digit string with leading zeros up to the given length. -/
def padZeros (s : String) (len : Nat) : String :=
  if s.length < len then String.mk (List.replicate (len - s.length) '0') ++ s else s

/-- Print the natural number m scaled down by ten to the k as a decimal
string with exactly k fraction digits. -/
def natToDecimalString (m k : Nat) : String :=
  if k == 0 then toString m
  else
    let cs := (padZeros (toString m) (k + 1)).toList
    let ilen := cs.length - k
    String.mk (cs.take ilen) ++ "." ++ String.mk (cs.drop ilen)

/-- Model of the JavaScript ToString conversion (also the String function)
on the finite-decimal numbers the provider payload carries; k is minimal,
so the fraction is printed without trailing zeros, as JS does. -/
def numToString (q : Rat) : String :=
  let a := if q < 0 then -q else q
  let sign := if q < 0 then "-" else ""
  match decExpAux a 30 0 with
  | some k => sign ++ natToDecimalString ((a * pow10 (k : Int)).num.toNat) k
  | none => sign ++ toString a.num ++ "/" ++ toString a.den

/-- Model of the JavaScript String function on payload values. -/
def jsString : JSVal → String
  | .str s => s
  | .num q => numToString q
  | .undef => "undefined"

/-- parseFloat applied to a payload value coerces it to a string first. -/
def jsvParseFloat (v : JSVal) : Option Rat :=
  jsParseFloat (jsString v)

/-- Floor of a rational as an integer (computable). -/
def ratFloor (q : Rat) : Int :=
  q.num.fdiv (q.den : Int)

/-- Model of Number.prototype.toFixed with two fraction digits: NaN prints
as the string NaN; otherwise the sign is taken off, the magnitude is
rounded to the nearest hundredth with ties away from zero, and exactly two
fraction digits are printed. -/
def jsToFixed2 : Option Rat → String
  | none => "NaN"
  | some q =>
    let sign := if q < 0 then "-" else ""
    let a := if q < 0 then -q else q
    let n := (ratFloor (a * 100 + 1 / 2)).toNat
    sign ++ toString (n / 100) ++ "." ++ padZeros (toString (n % 100)) 2

/-- Split a reversed digit list into groups of three. -/
def chunk3 : List Char → List (List Char)
  | [] => []
  | [a] => [[a]]
  | [a, b] => [[a, b]]
  | a :: b :: c :: rest => [a, b, c] :: chunk3 rest

/-- Insert comma group separators into a digit string, grouping by three
from the right. -/
def groupDigits (s : String) : String :=
  let chunks := (chunk3 s.toList.reverse).map List.reverse
  String.intercalate "," (chunks.reverse.map String.mk)

/-- Strip trailing zero digits. -/
def stripZeros (s : String) : String :=
  String.mk ((s.toList.reverse.dropWhile (· == '0')).reverse)

/-- Model of Number.prototype.toLocaleString in the default locale: NaN
prints as the string NaN; otherwise the magnitude is rounded to at most
three fraction digits (the default maximum, half away from zero) and the
integer part is grouped with commas. The payload carries integers, for
which this is exact. -/
def jsToLocaleString : Option Rat → String
  | none => "NaN"
  | some q =>
    let sign := if q < 0 then "-" else ""
    let a := if q < 0 then -q else q
    let t := (ratFloor (a * 1000 + 1 / 2)).toNat
    let ip := t / 1000
    let fr := t % 1000
    if fr == 0 then sign ++ groupDigits (toString ip)
    else sign ++ groupDigits (toString ip) ++ "." ++ stripZeros (padZeros (toString fr) 3)

/-- The all_mkt_stats object of the provider payload (src/scrapers/dsr.js,
response shape documented at the head of the file); each field is a JS
value and may be absent. -/
structure RawStats where
  ACR : JSVal := .undef
  DSR : JSVal := .undef
  TV : JSVal := .undef
  RENTERS : JSVal := .undef
  DOM : JSVal := .undef
  OSI : JSVal := .undef
  YIELD : JSVal := .undef
  SOM_PERC : JSVal := .undef
  VACANCY : JSVal := .undef
  MEDIAN_12 : JSVal := .undef
  SR : JSVal := .undef
  DISCOUNT : JSVal := .undef
deriving DecidableEq, Repr, Inhabited

/-- The response wrapper of the provider payload; all_mkt_stats may be
absent or null. -/
structure DsrResponse where
  month : JSVal := .undef
  year : JSVal := .undef
  all_mkt_stats : Option RawStats := none
deriving DecidableEq, Repr, Inhabited

/-- The top-level provider JSON payload; response may be absent or null. -/
structure DsrJson where
  response : Option DsrResponse := none
deriving DecidableEq, Repr, Inhabited

/-- The normalized data object built by formatResponse in
src/scrapers/dsr.js (the MarketStats record of the spec). -/
structure MarketStats where
  stock_on_market : String
  stock_rating : String
  days_on_market : String
  dom_rating : String
  vendor_discounting : String
  vacancy_rate : String
  vacancy_rating : String
  gross_rental_yield : String
  yield_rating : String
  dsr_score : String
  median_12_months : String
  typical_value : String
  renters_percentage : String
  auction_clearance_rate : String
  online_search_interest : String
  statistical_reliability : String
  data_month : JSVal
  data_year : JSVal
deriving DecidableEq, Repr

/-- The object returned by formatResponse and scrapeStockOnMarket: either
success true with a data object, or success false with an error string. -/
inductive DsrResult where
  | success (data : MarketStats)
  | failure (error : String)
deriving DecidableEq, Repr

/-- The stock_rating conditional of formatResponse (line 299 of
src/scrapers/dsr.js): stockOnMarket less-or-equal 1.5 is Low, 3.0 is
Average, else High. -/
def stockRating (x : Rat) : String :=
  if x ≤ 3 / 2 then "Low" else if x ≤ 3 then "Average" else "High"

/-- The dom_rating conditional of formatResponse (line 302): dom
less-or-equal 25 is Fast, 45 is Average, else Slow. -/
def domRating (x : Rat) : String :=
  if x ≤ 25 then "Fast" else if x ≤ 45 then "Average" else "Slow"

/-- The vacancy_rating conditional of formatResponse (line 307): vacancy
less-or-equal 2.0 is Low, 3.0 is Average, else High. -/
def vacancyRating (x : Rat) : String :=
  if x ≤ 2 then "Low" else if x ≤ 3 then "Average" else "High"

/-- The yield_rating conditional of formatResponse (line 310), which
compares the raw stats.YIELD value: at least 5 is Strong, at least 3 is
Average, else Low; a comparison against NaN is false, so an unparsable
yield lands in Low. -/
def yieldRating (v : JSVal) : String :=
  match jsToNumber v with
  | some q => if 5 ≤ q then "Strong" else if 3 ≤ q then "Average" else "Low"
  | none => "Low"

/-- Translation of formatResponse (src/scrapers/dsr.js lines 283 to 325):
reads json.response.all_mkt_stats with optional chaining, fails when it is
absent, and otherwise builds the normalized data object; the three rating
inputs fall back to zero when parseFloat gives NaN (the or-zero guards on
lines 290 to 292). -/
def formatResponse : Option DsrJson → DsrResult
  | none => .failure "No stats in DSR response"
  | some j =>
    match j.response with
    | none => .failure "No stats in DSR response"
    | some r =>
      match r.all_mkt_stats with
      | none => .failure "No stats in DSR response"
      | some stats =>
        let som := (jsvParseFloat stats.SOM_PERC).getD 0
        let vac := (jsvParseFloat stats.VACANCY).getD 0
        let dom := (jsvParseFloat stats.DOM).getD 0
        .success {
          stock_on_market := jsToFixed2 (jsvParseFloat stats.SOM_PERC) ++ "%"
          stock_rating := stockRating som
          days_on_market := jsString stats.DOM
          dom_rating := domRating dom
          vendor_discounting := jsToFixed2 (jsvParseFloat stats.DISCOUNT) ++ "%"
          vacancy_rate := jsToFixed2 (jsvParseFloat stats.VACANCY) ++ "%"
          vacancy_rating := vacancyRating vac
          gross_rental_yield := jsToFixed2 (jsvParseFloat stats.YIELD) ++ "%"
          yield_rating := yieldRating stats.YIELD
          dsr_score := jsString stats.DSR
          median_12_months := "$" ++ jsToLocaleString (jsToNumber stats.MEDIAN_12)
          typical_value := "$" ++ jsToLocaleString (jsToNumber stats.TV)
          renters_percentage := jsString stats.RENTERS ++ "%"
          auction_clearance_rate := jsString stats.ACR ++ "%"
          online_search_interest := jsString stats.OSI
          statistical_reliability := jsString stats.SR
          data_month := r.month
          data_year := r.year
        }

/-- The raw stats payload of the end-to-end example in the spec. -/
def exampleStats : RawStats where
  ACR := .num (951 / 10)
  DSR := .num 48
  TV := .num 2125300
  RENTERS := .num 20
  DOM := .num 36
  OSI := .num 45
  YIELD := .num (241 / 100)
  SOM_PERC := .str "0.95"
  VACANCY := .str "1.32"
  MEDIAN_12 := .num 1926610
  SR := .num 68
  DISCOUNT := .str "-.56"

/-- A stats payload with every source field absent. -/
def emptyStats : RawStats := {}

/-- One hexadecimal digit, upper case, for percent escapes. -/
def hexDigit (n : Nat) : Char :=
  if n < 10 then Char.ofNat (48 + n) else Char.ofNat (55 + n)

/-- Form encoding of one character as URLSearchParams does it: space
becomes plus, alphanumerics and asterisk, minus, period, underscore stay,
anything else is percent escaped (the model covers the ASCII inputs the
scraper is called with). -/
def urlEncodeChar (c : Char) : List Char :=
  if c == ' ' then ['+']
  else if c.isAlphanum || c == '*' || c == '-' || c == '.' || c == '_' then [c]
  else ['%', hexDigit (c.toNat / 16), hexDigit (c.toNat % 16)]

/-- Form encoding of a string as URLSearchParams does it. -/
def urlEncode (s : String) : String :=
  String.mk (s.toList.map urlEncodeChar).flatten

/-- The provider origin (DSR_BASE in src/scrapers/dsr.js). -/
def DSR_BASE : String := "https://dsrdata.com.au"

/-- Translation of buildApiUrl (src/scrapers/dsr.js lines 256 to 269):
the getAllMktStats.json URL with the URLSearchParams serialization of the
eight parameters in insertion order; state and locality are upper-cased. -/
def buildApiUrl (accessToken suburb state postcode : String) : String :=
  DSR_BASE ++ "/DSRWeb/secure/getAllMktStats.json?" ++
    "access_token=" ++ urlEncode accessToken ++
    "&state=" ++ urlEncode state.toUpper ++
    "&postCode=" ++ urlEncode postcode ++
    "&locality=" ++ urlEncode suburb.toUpper ++
    "&propTypeCode=H&requestType=DSR&captchaResponse=&status=noRecap"

/-- The DSR session captured by getSession: the intercepted bearer token,
the JSESSIONID cookie value, and the serialized cookie header. -/
structure Session where
  accessToken : String
  jsessionId : String
  cookies : String
deriving DecidableEq, Repr, Inhabited

/-- The module-level mutable state of src/scrapers/dsr.js: cachedSession
(initially null) and sessionExpiry (initially 0), a millisecond
timestamp. -/
structure DsrState where
  cachedSession : Option Session
  sessionExpiry : Int
deriving DecidableEq, Repr, Inhabited

/-- The fixed session TTL of 25 minutes in milliseconds. -/
def SESSION_TTL : Int := 25 * 60 * 1000

/-- Outcome of one full login sequence (the browser part of getSession):
a captured session, or the error it throws (authentication failure, no
JSESSIONID, no access token observed). -/
inductive LoginOutcome where
  | ok (s : Session)
  | err (e : String)
deriving DecidableEq, Repr, Inhabited

/-- The login branch of getSession: the oracle login gives the outcome of
the k-th login sequence ever performed; success stores the new session
with a fresh TTL, failure rethrows and leaves the cache untouched. -/
def performLogin (login : Nat → LoginOutcome) (k : Nat) (now : Int) (st : DsrState) :
    Except String Session × DsrState × Nat :=
  match login k with
  | .ok s => (.ok s, ⟨some s, now + SESSION_TTL⟩, k + 1)
  | .err e => (.error e, st, k + 1)

/-- Translation of getSession (src/scrapers/dsr.js lines 49 to 198):
return the cached session immediately when one is cached and now is
before its expiry (no I/O); otherwise perform a login sequence. The
returned counter is the total number of login sequences performed so
far. -/
def getSession (login : Nat → LoginOutcome) (k : Nat) (now : Int) (st : DsrState) :
    Except String Session × DsrState × Nat :=
  match st.cachedSession with
  | some s => if now < st.sessionExpiry then (.ok s, st, k) else performLogin login k now st
  | none => performLogin login k now st

/-- A provider HTTP response: the status code and the outcome of
response.json() (an error when the body is not JSON, otherwise the parsed
payload, which may be JSON null). -/
structure HttpResponse where
  status : Nat
  body : Except String (Option DsrJson)
deriving Repr

/-- The ok flag of a fetch response: a status in the 200 to 299 range. -/
def responseOk (r : HttpResponse) : Bool :=
  200 ≤ r.status && r.status < 300

/-- Everything observable about one scrapeStockOnMarket call: the returned
object, the module state left behind, and how many login sequences and
provider requests were performed. -/
structure ScrapeOutcome where
  result : DsrResult
  state : DsrState
  logins : Nat
  fetches : Nat
deriving Repr

/-- The tail of scrapeStockOnMarket after the optional retry
(src/scrapers/dsr.js lines 240 to 245): a non-ok status throws DSR API
returned N, which the outer catch turns into a failure result; an ok
status parses the body and hands it to formatResponse. -/
def finishRequest (r : HttpResponse) (st : DsrState) (k f : Nat) : ScrapeOutcome :=
  if responseOk r then
    match r.body with
    | .error e => ⟨.failure e, st, k, f⟩
    | .ok j => ⟨formatResponse j, st, k, f⟩
  else ⟨.failure ("DSR API returned " ++ toString r.status), st, k, f⟩

/-- Translation of scrapeStockOnMarket (src/scrapers/dsr.js lines 205 to
250). The oracle respond gives the outcome of each fetch, in order (index
0 the first request, index 1 the retry) and as a function of the request
URL; a fetch may itself throw (network error). A 401 or 403 status clears
the cached session and retries the same request once with a fresh
session; every thrown error is caught and returned as a failure result
with its message. -/
def scrapeStockOnMarket (suburb state postcode : String) (login : Nat → LoginOutcome)
    (respond : Nat → String → Except String HttpResponse) (now : Int) (st : DsrState) :
    ScrapeOutcome :=
  match getSession login 0 now st with
  | (.error e, st1, k1) => ⟨.failure e, st1, k1, 0⟩
  | (.ok s, st1, k1) =>
    match respond 0 (buildApiUrl s.accessToken suburb state postcode) with
    | .error e => ⟨.failure e, st1, k1, 1⟩
    | .ok r0 =>
      if r0.status == 401 || r0.status == 403 then
        match getSession login k1 now ⟨none, 0⟩ with
        | (.error e, st3, k2) => ⟨.failure e, st3, k2, 1⟩
        | (.ok s2, st3, k2) =>
          match respond 1 (buildApiUrl s2.accessToken suburb state postcode) with
          | .error e => ⟨.failure e, st3, k2, 2⟩
          | .ok r1 => finishRequest r1 st3 k2 2
      else finishRequest r0 st1 k1 1

/-- The reduced per-address record scrapeComparables (the CoreLogic
scraper, src/unnamed part_001) reads from a property page; every field
degrades to the empty string when its selector finds nothing. -/
structure CompData where
  bedrooms : String := ""
  bathrooms : String := ""
  car_spaces : String := ""
  land_size : String := ""
  sold_price : String := ""
  sold_date : String := ""
deriving DecidableEq, Repr, Inhabited

/-- Outcome of searching one address and reading its page: the data read,
or the error thrown (search miss, timeout, extraction failure). -/
inductive AddrOutcome where
  | ok (d : CompData)
  | err (e : String)
deriving DecidableEq, Repr, Inhabited

/-- Whether the per-address work succeeded. -/
def AddrOutcome.isOk : AddrOutcome → Bool
  | .ok _ => true
  | .err _ => false

/-- One entry of the comparables result list: the originating address
spread with the data read (success true), or with the caught error
(success false). -/
inductive CompRecord where
  | ok (address : String) (d : CompData)
  | fail (address : String) (error : String)
deriving DecidableEq, Repr

/-- The originating address of a result entry. -/
def CompRecord.address : CompRecord → String
  | .ok a _ => a
  | .fail a _ => a

/-- The success flag of a result entry. -/
def CompRecord.success : CompRecord → Bool
  | .ok _ _ => true
  | .fail _ _ => false

/-- Translation of scrapeComparables (src/unnamed part_001 lines 274 to
330): run loginToCoreLogic once (the oracle loginResult gives its
outcome; a login failure is caught only by the outer boundary, which
returns a whole-batch failure object with no per-item entries); then
visit each address strictly in order in the one browsing context (the
oracle visit gives each outcome), pushing a success record, or a caught
failure record when the per-address work throws, and return the ordered
list. -/
def scrapeComparables (loginResult : Except String Unit)
    (visit : String → AddrOutcome) (addresses : List String) :
    Except String (List CompRecord) :=
  match loginResult with
  | .error e => .error e
  | .ok _ =>
    .ok (addresses.map fun a =>
      match visit a with
      | .ok d => .ok a d
      | .err e => .fail a e)

/-- The fields of the CoreLogic property record involved in the market
status derivation of scrapeProperty (src/unnamed part_001); sold_price
stays the empty string when no sale price was found on the page. -/
structure PropertyData where
  sold_price : String := ""
  sold_date : String := ""
  market_status : String := ""
deriving DecidableEq, Repr, Inhabited

/-- Translation of the derivation step of scrapeProperty (src/unnamed
part_001 line 258): data.market_status is OFF Market when data.sold_price
is truthy (a non-empty string), ON Market otherwise. -/
def deriveMarketStatus (d : PropertyData) : PropertyData :=
  { d with market_status := if d.sold_price ≠ "" then "OFF Market" else "ON Market" }

example : jsParseFloat "0.95" = some (19 / 20) := by decide
example : jsParseFloat "-.56" = some (-14 / 25) := by decide
example : jsParseFloat "undefined" = none := by decide
example : jsToFixed2 (some (19 / 20)) = "0.95" := by decide
example : jsToFixed2 (some (-14 / 25)) = "-0.56" := by decide
example : jsToFixed2 none = "NaN" := by decide
example : jsString (.num 36) = "36" := by decide
example : jsString (.num (241 / 100)) = "2.41" := by decide
example : jsString (.num (951 / 10)) = "95.1" := by decide
example : jsToLocaleString (some 1926610) = "1,926,610" := by decide
example : jsToLocaleString none = "NaN" := by decide
example : strToNumber "2.41" = some (241 / 100) := by decide
example : strToNumber "" = some 0 := by decide
example : strToNumber "abc" = none := by decide

example :
    formatResponse (some { response := some { all_mkt_stats := some exampleStats } }) =
      .success {
        stock_on_market := "0.95%"
        stock_rating := "Low"
        days_on_market := "36"
        dom_rating := "Average"
        vendor_discounting := "-0.56%"
        vacancy_rate := "1.32%"
        vacancy_rating := "Low"
        gross_rental_yield := "2.41%"
        yield_rating := "Low"
        dsr_score := "48"
        median_12_months := "$1,926,610"
        typical_value := "$2,125,300"
        renters_percentage := "20%"
        auction_clearance_rate := "95.1%"
        online_search_interest := "45"
        statistical_reliability := "68"
        data_month := .undef
        data_year := .undef } := by decide

example :
    ∃ d, formatResponse (some { response := some { all_mkt_stats := some emptyStats } }) =
      .success d ∧ d.stock_on_market = "NaN%" ∧ d.days_on_market = "undefined" ∧
      d.median_12_months = "$NaN" ∧ d.stock_rating = "Low" ∧ d.dom_rating = "Fast" := by
  exact ⟨_, rfl, by decide, by decide, by decide, by decide, by decide⟩

/-- C5: the rating thresholds assigned by the normalizer are closed at the
boundary: a stock-on-market percentage of exactly 1.50 rates Low and 1.51
rates Average (at most 1.5 Low, at most 3.0 Average, else High); a
days-on-market value of exactly 45 rates Average and 46 rates Slow (at
most 25 Fast, at most 45 Average, else Slow); vacancy uses at most 2.0
Low, at most 3.0 Average, else High; gross yield uses at least 5 Strong,
at least 3 Average, else Low. -/
theorem rating_thresholds_closed :
    stockRating (3 / 2) = "Low" ∧ stockRating (151 / 100) = "Average" ∧
    domRating 45 = "Average" ∧ domRating 46 = "Slow" ∧
    (∀ x : Rat, x ≤ 3 / 2 → stockRating x = "Low") ∧
    (∀ x : Rat, 3 / 2 < x → x ≤ 3 → stockRating x = "Average") ∧
    (∀ x : Rat, 3 < x → stockRating x = "High") ∧
    (∀ x : Rat, x ≤ 25 → domRating x = "Fast") ∧
    (∀ x : Rat, 25 < x → x ≤ 45 → domRating x = "Average") ∧
    (∀ x : Rat, 45 < x → domRating x = "Slow") ∧
    (∀ x : Rat, x ≤ 2 → vacancyRating x = "Low") ∧
    (∀ x : Rat, 2 < x → x ≤ 3 → vacancyRating x = "Average") ∧
    (∀ x : Rat, 3 < x → vacancyRating x = "High") ∧
    (∀ q : Rat, 5 ≤ q → yieldRating (.num q) = "Strong") ∧
    (∀ q : Rat, 3 ≤ q → q < 5 → yieldRating (.num q) = "Average") ∧
    (∀ q : Rat, q < 3 → yieldRating (.num q) = "Low") := by
  refine ⟨by decide, by decide, by decide, by decide, ?_, ?_, ?_, ?_, ?_, ?_, ?_, ?_, ?_,
    ?_, ?_, ?_⟩
  · intro x h; unfold stockRating; rw [if_pos h]
  · intro x h1 h2; unfold stockRating; rw [if_neg (not_le.mpr h1), if_pos h2]
  · intro x h
    unfold stockRating
    rw [if_neg (not_le.mpr (by linarith)), if_neg (not_le.mpr h)]
  · intro x h; unfold domRating; rw [if_pos h]
  · intro x h1 h2; unfold domRating; rw [if_neg (not_le.mpr h1), if_pos h2]
  · intro x h
    unfold domRating
    rw [if_neg (not_le.mpr (by linarith)), if_neg (not_le.mpr h)]
  · intro x h; unfold vacancyRating; rw [if_pos h]
  · intro x h1 h2; unfold vacancyRating; rw [if_neg (not_le.mpr h1), if_pos h2]
  · intro x h
    unfold vacancyRating
    rw [if_neg (not_le.mpr (by linarith)), if_neg (not_le.mpr h)]
  · intro q h; simp only [yieldRating, jsToNumber]; rw [if_pos h]
  · intro q h1 h2
    simp only [yieldRating, jsToNumber]
    rw [if_neg (not_le.mpr h2), if_pos h1]
  · intro q h
    simp only [yieldRating, jsToNumber]
    rw [if_neg (not_le.mpr (show q < 5 by linarith)), if_neg (not_le.mpr h)]

/-- Witness for C5 at concrete inputs strictly inside each band. -/
theorem rating_thresholds_closed_witness :
    stockRating 2 = "Average" ∧ domRating 30 = "Average" ∧
    vacancyRating 4 = "High" ∧ yieldRating (.num 6) = "Strong" := by
  obtain ⟨-, -, -, -, -, hsa, -, -, hda, -, -, -, hvh, hys, -, -⟩ := rating_thresholds_closed
  exact ⟨hsa 2 (by norm_num) (by norm_num), hda 30 (by norm_num) (by norm_num),
    hvh 4 (by norm_num), hys 6 (by norm_num)⟩

/-- C6: normalizing the raw stats payload of the end-to-end example
produces exactly the nine documented field values, whatever the reporting
month and year are. -/
theorem formatResponse_end_to_end_example (m y : JSVal) :
    ∃ d,
      formatResponse
          (some { response := some { month := m, year := y, all_mkt_stats := some exampleStats } }) =
        .success d ∧
      d.stock_on_market = "0.95%" ∧ d.stock_rating = "Low" ∧
      d.days_on_market = "36" ∧ d.dom_rating = "Average" ∧
      d.vacancy_rate = "1.32%" ∧ d.vacancy_rating = "Low" ∧
      d.gross_rental_yield = "2.41%" ∧ d.yield_rating = "Low" ∧
      d.median_12_months = "$1,926,610" := by
  refine ⟨_, rfl, ?_, ?_, ?_, ?_, ?_, ?_, ?_, ?_, ?_⟩
  · show jsToFixed2 (jsvParseFloat exampleStats.SOM_PERC) ++ "%" = "0.95%"
    decide
  · show stockRating ((jsvParseFloat exampleStats.SOM_PERC).getD 0) = "Low"
    decide
  · show jsString exampleStats.DOM = "36"
    decide
  · show domRating ((jsvParseFloat exampleStats.DOM).getD 0) = "Average"
    decide
  · show jsToFixed2 (jsvParseFloat exampleStats.VACANCY) ++ "%" = "1.32%"
    decide
  · show vacancyRating ((jsvParseFloat exampleStats.VACANCY).getD 0) = "Low"
    decide
  · show jsToFixed2 (jsvParseFloat exampleStats.YIELD) ++ "%" = "2.41%"
    decide
  · show yieldRating exampleStats.YIELD = "Low"
    decide
  · show "$" ++ jsToLocaleString (jsToNumber exampleStats.MEDIAN_12) = "$1,926,610"
    decide

/-- C7: any payload in which the all_mkt_stats object is missing
(including a null payload or a missing or null response wrapper) makes
the normalizer fail with the no-stats upstream error, and no normalized
data is produced from it. -/
theorem formatResponse_no_stats_failure (j : Option DsrJson)
    (h : j = none ∨ (∃ w, j = some w ∧ w.response = none) ∨
      (∃ w r, j = some w ∧ w.response = some r ∧ r.all_mkt_stats = none)) :
    formatResponse j = .failure "No stats in DSR response" ∧
    ∀ d, formatResponse j ≠ .success d := by
  have h1 : formatResponse j = .failure "No stats in DSR response" := by
    rcases h with rfl | ⟨w, rfl, hw⟩ | ⟨w, r, rfl, hw, hr⟩
    · rfl
    · simp [formatResponse, hw]
    · simp [formatResponse, hw, hr]
  exact ⟨h1, fun d hd => by rw [h1] at hd; exact DsrResult.noConfusion hd⟩

/-- Witness for C7 at the null payload. -/
theorem formatResponse_no_stats_failure_witness :
    formatResponse none = .failure "No stats in DSR response" :=
  (formatResponse_no_stats_failure none (Or.inl rfl)).1

/-- C4 counterexample: with every source field absent the normalizer
still returns success, but the stock-on-market field is the malformed
string NaN percent (and days-on-market the text undefined, the median a
dollar NaN), not a zero or empty default. -/
theorem formatResponse_missing_field_cex :
    ∃ d,
      formatResponse (some { response := some { all_mkt_stats := some emptyStats } }) =
        .success d ∧
      d.stock_on_market = "NaN%" ∧ d.days_on_market = "undefined" ∧
      d.median_12_months = "$NaN" ∧ d.stock_on_market ≠ "0.00%" ∧ d.stock_on_market ≠ "" :=
  ⟨_, rfl, by decide, by decide, by decide, by decide, by decide⟩

/-- C4 amended: a missing or non-numeric source field never fails the
whole record (the result is still a success record) and the derived
rating fields take the default branch for a zero value, but the formatted
value fields render as NaN or undefined text rather than a zero or empty
default. -/
theorem formatResponse_missing_fields_amended (m y : JSVal) (stats : RawStats) :
    ∃ d,
      formatResponse
          (some { response := some { month := m, year := y, all_mkt_stats := some stats } }) =
        .success d ∧
      (jsvParseFloat stats.SOM_PERC = none →
        d.stock_rating = "Low" ∧ d.stock_on_market = "NaN%") ∧
      (jsvParseFloat stats.DOM = none → d.dom_rating = "Fast") ∧
      (jsvParseFloat stats.VACANCY = none →
        d.vacancy_rating = "Low" ∧ d.vacancy_rate = "NaN%") ∧
      (jsToNumber stats.YIELD = none → d.yield_rating = "Low") ∧
      (jsToNumber stats.MEDIAN_12 = none → d.median_12_months = "$NaN") := by
  refine ⟨_, rfl, ?_, ?_, ?_, ?_, ?_⟩
  · intro h
    constructor
    · show stockRating ((jsvParseFloat stats.SOM_PERC).getD 0) = "Low"
      rw [h]; decide
    · show jsToFixed2 (jsvParseFloat stats.SOM_PERC) ++ "%" = "NaN%"
      rw [h]; decide
  · intro h
    show domRating ((jsvParseFloat stats.DOM).getD 0) = "Fast"
    rw [h]; decide
  · intro h
    constructor
    · show vacancyRating ((jsvParseFloat stats.VACANCY).getD 0) = "Low"
      rw [h]; decide
    · show jsToFixed2 (jsvParseFloat stats.VACANCY) ++ "%" = "NaN%"
      rw [h]; decide
  · intro h
    show yieldRating stats.YIELD = "Low"
    unfold yieldRating
    rw [h]
  · intro h
    show "$" ++ jsToLocaleString (jsToNumber stats.MEDIAN_12) = "$NaN"
    rw [h]; decide

/-- Witness for C4 at the all-absent payload. -/
theorem formatResponse_missing_fields_amended_witness :
    ∃ d,
      formatResponse (some { response := some { month := .undef, year := .undef, all_mkt_stats := some emptyStats } }) = .success d ∧
      d.stock_rating = "Low" ∧ d.stock_on_market = "NaN%" := by
  obtain ⟨d, hd, hsom, -, -, -, -⟩ :=
    formatResponse_missing_fields_amended .undef .undef emptyStats
  obtain ⟨h1, h2⟩ := hsom (by decide)
  exact ⟨d, hd, h1, h2⟩

/-- C8: for every property record read from a detail page, the derived
market status is OFF Market exactly when a sale price was found (a
non-empty sold_price) and ON Market exactly otherwise. -/
theorem deriveMarketStatus_iff (d : PropertyData) :
    ((deriveMarketStatus d).market_status = "OFF Market" ↔ d.sold_price ≠ "") ∧
    ((deriveMarketStatus d).market_status = "ON Market" ↔ d.sold_price = "") := by
  have hne : ("OFF Market" : String) ≠ "ON Market" := by decide
  unfold deriveMarketStatus
  by_cases h : d.sold_price = "" <;> simp [h, hne]

/-- Witness for C8: a found sale price yields OFF Market. -/
theorem deriveMarketStatus_iff_witness :
    (deriveMarketStatus { sold_price := "$2,400,000" }).market_status = "OFF Market" :=
  (deriveMarketStatus_iff { sold_price := "$2,400,000" }).1.mpr (by decide)

/-- C3 counterexample: when the single CoreLogic login fails, the batch
returns one whole-batch failure object and no per-item records at all, so
for the three addresses the claimed length-three record list does not
exist. -/
theorem scrapeComparables_whole_failure_cex :
    scrapeComparables (.error "login failed") (fun _ => .err "unused") ["A", "B", "C"] =
      .error "login failed" ∧
    ∀ l : List CompRecord,
      scrapeComparables (.error "login failed") (fun _ => .err "unused") ["A", "B", "C"] ≠
        .ok l :=
  ⟨rfl, fun _ h => Except.noConfusion h⟩

/-- C3 amended: once the single login has succeeded, the batch never
fails as a whole: it returns exactly one record per input address, in the
same length and order as the input, and an entry has success true exactly
when visiting its address succeeded, so a failure on one address is
caught, recorded, and does not abort the remaining addresses. -/
theorem scrapeComparables_batch_isolation (visit : String → AddrOutcome)
    (addresses : List String) :
    ∃ l, scrapeComparables (.ok ()) visit addresses = .ok l ∧
      l.length = addresses.length ∧
      l.map CompRecord.address = addresses ∧
      l.map CompRecord.success = addresses.map fun a => (visit a).isOk := by
  refine ⟨_, rfl, by simp, ?_, ?_⟩
  · induction addresses with
    | nil => rfl
    | cons a as ih =>
      simp only [List.map_cons, ih, List.cons.injEq, and_true]
      cases h : visit a <;> rfl
  · induction addresses with
    | nil => rfl
    | cons a as ih =>
      simp only [List.map_cons, ih, List.cons.injEq, and_true]
      cases h : visit a <;> rfl

/-- The tail of a request keeps the state and the counters it was given. -/
theorem finishRequest_keeps (r : HttpResponse) (st : DsrState) (k f : Nat) :
    (finishRequest r st k f).state = st ∧ (finishRequest r st k f).logins = k ∧
      (finishRequest r st k f).fetches = f := by
  unfold finishRequest
  split
  · split <;> exact ⟨rfl, rfl, rfl⟩
  · exact ⟨rfl, rfl, rfl⟩

/-- A 200 response with a parsed body hands the payload to the
normalizer. -/
theorem finishRequest_result_ok (r : HttpResponse) (st : DsrState) (k f : Nat)
    (b : Option DsrJson) (hs : r.status = 200) (hb : r.body = .ok b) :
    (finishRequest r st k f).result = formatResponse b := by
  simp [finishRequest, responseOk, hs, hb]

/-- An authorization-denied status is not ok and yields the DSR API
returned N failure. -/
theorem finishRequest_result_denied (r : HttpResponse) (st : DsrState) (k f : Nat)
    (hs : r.status = 401 ∨ r.status = 403) :
    (finishRequest r st k f).result = .failure ("DSR API returned " ++ toString r.status) := by
  rcases hs with h | h <;> simp [finishRequest, responseOk, h]

/-- A cached unexpired session is returned as is, with no login. -/
theorem getSession_cached (login : Nat → LoginOutcome) (k : Nat) (now : Int)
    (s : Session) (e : Int) (hv : now < e) :
    getSession login k now ⟨some s, e⟩ = (.ok s, ⟨some s, e⟩, k) := by
  simp [getSession, hv]

/-- With no cached session the login sequence runs; on success the new
session is cached with a fresh TTL. -/
theorem getSession_fresh (login : Nat → LoginOutcome) (k : Nat) (now : Int)
    (s : Session) (hl : login k = .ok s) :
    getSession login k now ⟨none, 0⟩ = (.ok s, ⟨some s, now + SESSION_TTL⟩, k + 1) := by
  simp [getSession, performLogin, hl]

/-- A login branch that fails traces back to the login oracle. -/
theorem performLogin_error_src (login : Nat → LoginOutcome) (k : Nat) (now : Int)
    (st : DsrState) (e : String) (st2 : DsrState) (k2 : Nat)
    (h : performLogin login k now st = (.error e, st2, k2)) : login k = .err e := by
  unfold performLogin at h
  rcases hl : login k with s | e3
  · rw [hl] at h; exact absurd h (by simp)
  · rw [hl] at h
    simp only [Prod.mk.injEq, Except.error.injEq] at h
    rw [h.1]

/-- A getSession call that fails traces back to the login oracle. -/
theorem getSession_error_src (login : Nat → LoginOutcome) (k : Nat) (now : Int)
    (st : DsrState) (e : String) (st2 : DsrState) (k2 : Nat)
    (h : getSession login k now st = (.error e, st2, k2)) : login k = .err e := by
  obtain ⟨cs, exp⟩ := st
  rcases cs with _ | s
  · simp only [getSession] at h
    exact performLogin_error_src login k now ⟨none, exp⟩ e st2 k2 h
  · simp only [getSession] at h
    by_cases ht : now < exp
    · rw [if_pos ht] at h; exact absurd h (by simp)
    · rw [if_neg ht] at h
      exact performLogin_error_src login k now ⟨some s, exp⟩ e st2 k2 h

/-- The normalizer either succeeds or fails with the one no-stats error. -/
theorem formatResponse_cases (j : Option DsrJson) :
    (∃ d, formatResponse j = .success d) ∨
      formatResponse j = .failure "No stats in DSR response" := by
  rcases j with _ | ⟨_ | ⟨m, y, _ | stats⟩⟩
  · exact Or.inr rfl
  · exact Or.inr rfl
  · exact Or.inr rfl
  · exact Or.inl ⟨_, rfl⟩

/-- Every result of the request tail is a success, the no-stats failure,
a body parse failure, or the non-2xx status failure. -/
theorem finishRequest_cases (r : HttpResponse) (st : DsrState) (k f : Nat) :
    (∃ d, (finishRequest r st k f).result = .success d) ∨
    (finishRequest r st k f).result = .failure "No stats in DSR response" ∨
    (∃ e, (finishRequest r st k f).result = .failure e ∧ r.body = .error e) ∨
    (finishRequest r st k f).result =
      .failure ("DSR API returned " ++ toString r.status) := by
  obtain ⟨status, body⟩ := r
  unfold finishRequest
  split
  · rcases body with e0 | j
    · right; right; left; exact ⟨e0, rfl, rfl⟩
    · rcases formatResponse_cases j with ⟨d, hd⟩ | hf
      · exact Or.inl ⟨d, hd⟩
      · exact Or.inr (Or.inl hf)
  · right; right; right; rfl

/-- With a valid cached session and a first response of 200 carrying a
parsed body, the scrape returns the normalized body, performs no login
and exactly one fetch, and leaves the cache untouched. -/
theorem scrape_cached_200 (suburb state postcode : String)
    (login : Nat → LoginOutcome) (respond : Nat → String → Except String HttpResponse)
    (now e : Int) (s : Session) (b : Option DsrJson) (hv : now < e)
    (hr : respond 0 (buildApiUrl s.accessToken suburb state postcode) = .ok ⟨200, .ok b⟩) :
    scrapeStockOnMarket suburb state postcode login respond now ⟨some s, e⟩ =
      ⟨formatResponse b, ⟨some s, e⟩, 0, 1⟩ := by
  simp [scrapeStockOnMarket, getSession_cached login 0 now s e hv, hr,
    finishRequest, responseOk]

/-- C2: getSession performs a login sequence exactly when no cached
session is within its TTL: a first call from the empty state performs the
login and caches the session; a second call before the expiry returns the
cached session with no further login; a call at or after the expiry
always performs a fresh login sequence even though the session was never
explicitly invalidated. -/
theorem getSession_reuse_and_expiry (login : Nat → LoginOutcome) (s : Session)
    (t1 t2 : Int) (hlogin : login 0 = .ok s) :
    getSession login 0 t1 ⟨none, 0⟩ = (.ok s, ⟨some s, t1 + SESSION_TTL⟩, 1) ∧
    (t2 < t1 + SESSION_TTL →
      getSession login 1 t2 ⟨some s, t1 + SESSION_TTL⟩ =
        (.ok s, ⟨some s, t1 + SESSION_TTL⟩, 1)) ∧
    (t1 + SESSION_TTL ≤ t2 →
      (getSession login 1 t2 ⟨some s, t1 + SESSION_TTL⟩).2.2 = 2 ∧
      ∀ s2, login 1 = .ok s2 →
        getSession login 1 t2 ⟨some s, t1 + SESSION_TTL⟩ =
          (.ok s2, ⟨some s2, t2 + SESSION_TTL⟩, 2)) := by
  refine ⟨getSession_fresh login 0 t1 s hlogin, ?_, ?_⟩
  · intro h; exact getSession_cached login 1 t2 s (t1 + SESSION_TTL) h
  · intro h
    have hn : ¬ t2 < t1 + SESSION_TTL := not_lt.mpr h
    constructor
    · rcases hl : login 1 with s2 | e2 <;>
        simp [getSession, hn, performLogin, hl]
    · intro s2 h2
      simp [getSession, hn, performLogin, h2]

/-- Witness for C2: with a concrete login oracle and times zero and one
hundred, the second call reuses the cached session without a login. -/
theorem getSession_reuse_and_expiry_witness :
    getSession (fun k => if k == 0 then .ok ⟨"t", "j", "c"⟩ else .err "n") 1 100
      ⟨some ⟨"t", "j", "c"⟩, 0 + SESSION_TTL⟩ =
      (.ok ⟨"t", "j", "c"⟩, ⟨some ⟨"t", "j", "c"⟩, 0 + SESSION_TTL⟩, 1) :=
  (getSession_reuse_and_expiry (fun k => if k == 0 then .ok ⟨"t", "j", "c"⟩ else .err "n")
    ⟨"t", "j", "c"⟩ 0 100 rfl).2.1 (by decide)

/-- C1: with a valid cached session, a first provider response of 401 or
403 makes the scrape invalidate the cache, re-authenticate exactly once
(not twice), and retry the same request (same location parameters, fresh
token) exactly once: on a 200 retry with a parsed body it returns the
normalized result of that body, and on a second authorization denial it
fails with the session-expired error (DSR API returned that status). -/
theorem scrapeStockOnMarket_retry_once
    (suburb state postcode : String) (login : Nat → LoginOutcome)
    (respond : Nat → String → Except String HttpResponse)
    (now e : Int) (s0 s1 : Session) (r0 : HttpResponse)
    (hv : now < e) (hl : login 0 = .ok s1)
    (hd : respond 0 (buildApiUrl s0.accessToken suburb state postcode) = .ok r0)
    (hs : r0.status = 401 ∨ r0.status = 403) :
    (scrapeStockOnMarket suburb state postcode login respond now ⟨some s0, e⟩).logins = 1 ∧
    (scrapeStockOnMarket suburb state postcode login respond now ⟨some s0, e⟩).fetches = 2 ∧
    (scrapeStockOnMarket suburb state postcode login respond now ⟨some s0, e⟩).state =
      ⟨some s1, now + SESSION_TTL⟩ ∧
    (∀ b, respond 1 (buildApiUrl s1.accessToken suburb state postcode) = .ok ⟨200, .ok b⟩ →
      (scrapeStockOnMarket suburb state postcode login respond now ⟨some s0, e⟩).result =
        formatResponse b) ∧
    (∀ r1, respond 1 (buildApiUrl s1.accessToken suburb state postcode) = .ok r1 →
      r1.status = 401 ∨ r1.status = 403 →
      (scrapeStockOnMarket suburb state postcode login respond now ⟨some s0, e⟩).result =
        .failure ("DSR API returned " ++ toString r1.status)) := by
  have hcond : (r0.status == 401 || r0.status == 403) = true := by
    rcases hs with h | h <;> simp [h]
  have key : scrapeStockOnMarket suburb state postcode login respond now ⟨some s0, e⟩ =
      match respond 1 (buildApiUrl s1.accessToken suburb state postcode) with
      | .error e2 => ⟨.failure e2, ⟨some s1, now + SESSION_TTL⟩, 1, 2⟩
      | .ok r1 => finishRequest r1 ⟨some s1, now + SESSION_TTL⟩ 1 2 := by
    simp [scrapeStockOnMarket, getSession_cached login 0 now s0 e hv, hd, hcond,
      getSession_fresh login 0 now s1 hl]
  rw [key]
  rcases hr1 : respond 1 (buildApiUrl s1.accessToken suburb state postcode) with e2 | r1
  · refine ⟨rfl, rfl, rfl, ?_, ?_⟩
    · intro b hb; exact Except.noConfusion hb
    · intro r2 hb; exact Except.noConfusion hb
  · obtain ⟨hst, hlg, hft⟩ := finishRequest_keeps r1 ⟨some s1, now + SESSION_TTL⟩ 1 2
    refine ⟨hlg, hft, hst, ?_, ?_⟩
    · intro b hb
      injection hb with hb
      subst hb
      exact finishRequest_result_ok _ _ _ _ _ rfl rfl
    · intro r2 hb hs2
      injection hb with hb
      subst hb
      exact finishRequest_result_denied _ _ _ _ hs2

/-- Witness for C1: a concrete denied-then-success response sequence
yields one re-authentication and the normalized retry payload. -/
theorem scrapeStockOnMarket_retry_once_witness :
    (scrapeStockOnMarket "Kellyville" "nsw" "2155" (fun _ => .ok ⟨"t2", "j2", "c2"⟩)
        (fun i _ => if i == 0 then .ok ⟨401, .error "denied"⟩ else .ok ⟨200, .ok (some { response := some { all_mkt_stats := some exampleStats } })⟩)
        0 ⟨some ⟨"t1", "j1", "c1"⟩, 1⟩).logins = 1 ∧
    (scrapeStockOnMarket "Kellyville" "nsw" "2155" (fun _ => .ok ⟨"t2", "j2", "c2"⟩)
        (fun i _ => if i == 0 then .ok ⟨401, .error "denied"⟩ else .ok ⟨200, .ok (some { response := some { all_mkt_stats := some exampleStats } })⟩)
        0 ⟨some ⟨"t1", "j1", "c1"⟩, 1⟩).result =
      formatResponse (some { response := some { all_mkt_stats := some exampleStats } }) := by
  obtain ⟨h1, -, -, h4, -⟩ :=
    scrapeStockOnMarket_retry_once "Kellyville" "nsw" "2155"
      (fun _ => .ok ⟨"t2", "j2", "c2"⟩)
      (fun i _ => if i == 0 then .ok ⟨401, .error "denied"⟩ else .ok ⟨200, .ok (some { response := some { all_mkt_stats := some exampleStats } })⟩)
      0 1 ⟨"t1", "j1", "c1"⟩ ⟨"t2", "j2", "c2"⟩ ⟨401, .error "denied"⟩
      (by decide) rfl rfl (Or.inl rfl)
  exact ⟨h1, h4 _ rfl⟩

/-- C9: the normalizer is pure and deterministic: within the pipeline its
output is a function of the response payload alone, so two runs from
different cache states, clocks and login oracles whose responses carry
the same payload produce the identical MarketStats record. -/
theorem formatResponse_pure_deterministic
    (suburb state postcode : String)
    (login1 login2 : Nat → LoginOutcome)
    (respond1 respond2 : Nat → String → Except String HttpResponse)
    (now1 now2 e1 e2 : Int) (s1 s2 : Session) (b : Option DsrJson)
    (h1 : now1 < e1) (h2 : now2 < e2)
    (hr1 : respond1 0 (buildApiUrl s1.accessToken suburb state postcode) = .ok ⟨200, .ok b⟩)
    (hr2 : respond2 0 (buildApiUrl s2.accessToken suburb state postcode) = .ok ⟨200, .ok b⟩) :
    (scrapeStockOnMarket suburb state postcode login1 respond1 now1 ⟨some s1, e1⟩).result =
      formatResponse b ∧
    (scrapeStockOnMarket suburb state postcode login2 respond2 now2 ⟨some s2, e2⟩).result =
      (scrapeStockOnMarket suburb state postcode login1 respond1 now1 ⟨some s1, e1⟩).result := by
  rw [scrape_cached_200 suburb state postcode login1 respond1 now1 e1 s1 b h1 hr1,
    scrape_cached_200 suburb state postcode login2 respond2 now2 e2 s2 b h2 hr2]
  exact ⟨rfl, rfl⟩

/-- Witness for C9: two concrete pipeline contexts with different states
and clocks but the same payload produce the same result. -/
theorem formatResponse_pure_deterministic_witness :
    (scrapeStockOnMarket "Kellyville" "nsw" "2155" (fun _ => .err "n")
        (fun _ _ => .ok ⟨200, .ok (some { response := some { all_mkt_stats := some exampleStats } })⟩)
        0 ⟨some ⟨"ta", "ja", "ca"⟩, 5⟩).result =
      formatResponse (some { response := some { all_mkt_stats := some exampleStats } }) := by
  obtain ⟨ha, -⟩ :=
    formatResponse_pure_deterministic "Kellyville" "nsw" "2155"
      (fun _ => .err "n") (fun _ => .err "n")
      (fun _ _ => .ok ⟨200, .ok (some { response := some { all_mkt_stats := some exampleStats } })⟩)
      (fun _ _ => .ok ⟨200, .ok (some { response := some { all_mkt_stats := some exampleStats } })⟩)
      0 7 5 9 ⟨"ta", "ja", "ca"⟩ ⟨"tb", "jb", "cb"⟩
      (some { response := some { all_mkt_stats := some exampleStats } })
      (by decide) (by decide) rfl rfl
  exact ha

/-- C10: the market-stats operation is total at its interface: whatever
the session manager, the provider and the parser do, it returns a result
that is either success with data, or a failure carrying an error string
attributable to one of the failure sources (a login-sequence error, a
network error, a non-2xx status, a body parse error, or a payload without
stats); no failure path escapes as an exception or is silently dropped. -/
theorem scrapeStockOnMarket_total (suburb state postcode : String)
    (login : Nat → LoginOutcome) (respond : Nat → String → Except String HttpResponse)
    (now : Int) (st : DsrState) :
    (∃ d, (scrapeStockOnMarket suburb state postcode login respond now st).result =
      .success d) ∨
    (∃ e2, (scrapeStockOnMarket suburb state postcode login respond now st).result =
        .failure e2 ∧
      ((∃ k, login k = .err e2) ∨ (∃ i u, respond i u = .error e2) ∨
       (∃ n : Nat, e2 = "DSR API returned " ++ toString n) ∨
       (∃ i u r, respond i u = .ok r ∧ r.body = .error e2) ∨
       e2 = "No stats in DSR response")) := by
  unfold scrapeStockOnMarket
  split
  next e2 st1 k1 heq =>
    exact Or.inr ⟨e2, rfl, Or.inl ⟨0, getSession_error_src _ _ _ _ _ _ _ heq⟩⟩
  next s st1 k1 heq =>
    split
    next e2 hre =>
      exact Or.inr ⟨e2, rfl, Or.inr (Or.inl ⟨0, _, hre⟩)⟩
    next r0 hr0 =>
      split
      · split
        next e2 st3 k2 heq2 =>
          exact Or.inr ⟨e2, rfl, Or.inl ⟨k1, getSession_error_src _ _ _ _ _ _ _ heq2⟩⟩
        next s2 st3 k2 heq2 =>
          split
          next e2 hre2 =>
            exact Or.inr ⟨e2, rfl, Or.inr (Or.inl ⟨1, _, hre2⟩)⟩
          next r1 hr1 =>
            rcases finishRequest_cases r1 st3 k2 2 with ⟨d, hd⟩ | hf | ⟨e2, he, hb⟩ | hst
            · exact Or.inl ⟨d, hd⟩
            · exact Or.inr ⟨_, hf, Or.inr (Or.inr (Or.inr (Or.inr rfl)))⟩
            · exact Or.inr ⟨e2, he,
                Or.inr (Or.inr (Or.inr (Or.inl ⟨1, _, r1, hr1, hb⟩)))⟩
            · exact Or.inr ⟨_, hst, Or.inr (Or.inr (Or.inl ⟨r1.status, rfl⟩))⟩
      · rcases finishRequest_cases r0 st1 k1 1 with ⟨d, hd⟩ | hf | ⟨e2, he, hb⟩ | hst
        · exact Or.inl ⟨d, hd⟩
        · exact Or.inr ⟨_, hf, Or.inr (Or.inr (Or.inr (Or.inr rfl)))⟩
        · exact Or.inr ⟨e2, he,
            Or.inr (Or.inr (Or.inr (Or.inl ⟨0, _, r0, hr0, hb⟩)))⟩
        · exact Or.inr ⟨_, hst, Or.inr (Or.inr (Or.inl ⟨r0.status, rfl⟩))⟩

end PropWealth
